import Mathlib

/-!
Shallow embedding of `src/backend/main.py` (note-taking HTTP API with JWT auth).

Modelling choices:
* Python dicts (`users_db`, `notes_db`) become association lists with
  `dictGet`/`dictSet` (lookup and replace-or-append, matching dict semantics).
* Python `str.strip()` becomes `pyStrip` (drop whitespace from both ends),
  `str.lower()` becomes `pyLower` (character-wise `Char.toLower`).
* bcrypt hashing is modelled by an injective tagging function: this captures the
  Password Hasher contract (`verify p (hash p) = true`, distinct plaintexts do
  not collide) that the control flow of `main.py` relies on.
* JWTs are modelled by the inductive `Token`: a well-signed token carries its
  payload (optional `sub` claim and absolute `exp`); every malformed or
  wrongly-signed string is the single constructor `Token.malformed`, since
  `jwt.decode` rejects all of them with the same `JWTError`.
* Wall-clock instants (`datetime.utcnow`, `datetime.now().isoformat()`) become
  `Nat` parameters `now` threaded into each operation; token lifetimes are
  counted in minutes, mirroring `timedelta(minutes=...)`.
* Each endpoint returns `Except ApiError result`; endpoints that may mutate the
  global stores additionally return the post-call `Stores` (the pre-call stores
  on every error path, as in the Python code, where exceptions are raised before
  any mutation - except `delete_note`, which first rewrites the owner's list and
  only then checks whether anything was removed, reproduced faithfully here).
* FastAPI resolves the `get_current_user` dependency before validating the
  request body, so authentication is checked before payload validation in
  `create_note`/`update_note`; pydantic validation of `UserCreate` runs before
  the `signup`/`login_json` endpoint bodies, modelled by `mkUserCreate`.
-/

deriving instance DecidableEq for Except

namespace NoteApp

open List

/-- Python `str.strip()` on the underlying character list: drop whitespace
from the left, then from the right. -/
def stripL (l : List Char) : List Char :=
  (l.dropWhile Char.isWhitespace).rdropWhile Char.isWhitespace

/-- Python `str.strip()`. -/
def pyStrip (s : String) : String := ⟨stripL s.data⟩

/-- Python `str.lower()`. -/
def pyLower (s : String) : String := ⟨s.data.map Char.toLower⟩

/-- The username normalization `username.strip().lower()` used at signup and
login (`main.py` lines 155, 171, 188). -/
def normalizeUsername (s : String) : String := pyLower (pyStrip s)

/-- A credential-store record: `{"username": ..., "hashed_password": ...}`. -/
structure UserRec where
  username : String
  hashed_password : String
deriving DecidableEq

/-- A note record (`main.py` lines 217-223); timestamps are `Nat` instants. -/
structure NoteRec where
  id : Nat
  title : String
  content : String
  created_at : Nat
  updated_at : Nat
deriving DecidableEq

/-- A JWT: either well-signed with payload `{sub, exp}` (the `sub` claim may be
absent), or malformed/badly-signed (all rejected alike by `jwt.decode`). -/
inductive Token where
  | signed (sub : Option String) (exp : Nat)
  | malformed
deriving DecidableEq

/-- Response of the login endpoints: `{"access_token": ..., "token_type": ...}`. -/
structure TokenResponse where
  access_token : Token
  token_type : String
deriving DecidableEq

/-- The error taxonomy of the API (HTTP 422, 400, 401, 404 respectively). -/
inductive ApiError where
  | ValidationError
  | AlreadyExists
  | AuthenticationFailure
  | NotFound
deriving DecidableEq

/-- The two in-memory databases (`main.py` lines 34-35), as association lists
keyed by username. -/
structure Stores where
  users_db : List (String × UserRec)
  notes_db : List (String × List NoteRec)
deriving DecidableEq

/-- Python `d.get(k)` / `d[k]` lookup on an association list. -/
def dictGet {α : Type} (d : List (String × α)) (k : String) : Option α :=
  match d with
  | [] => none
  | (k', v) :: rest => if k' = k then some v else dictGet rest k

/-- Python `d[k] = v`: replace the binding in place, or append a new one. -/
def dictSet {α : Type} (d : List (String × α)) (k : String) (v : α) :
    List (String × α) :=
  match d with
  | [] => [(k, v)]
  | (k', v') :: rest =>
    if k' = k then (k, v) :: rest else (k', v') :: dictSet rest k v

/-- Model of `pwd_context.hash` (bcrypt): injective one-way tagging. -/
def get_password_hash (password : String) : String := "bcrypt$" ++ password

/-- Model of `pwd_context.verify` (`main.py` lines 104-105). -/
def verify_password (plain hashed : String) : Bool :=
  hashed == get_password_hash plain

/-- `get_user` (`main.py` lines 110-113): lookup in `users_db`. -/
def get_user (users_db : List (String × UserRec)) (username : String) :
    Option UserRec :=
  dictGet users_db username

/-- `authenticate_user` (`main.py` lines 115-121). -/
def authenticate_user (s : Stores) (username password : String) :
    Option UserRec :=
  match get_user s.users_db username with
  | none => none
  | some user =>
    if verify_password password user.hashed_password then some user else none

/-- `ACCESS_TOKEN_EXPIRE_MINUTES = 60` (`main.py` line 16). -/
def ACCESS_TOKEN_EXPIRE_MINUTES : Nat := 60

/-- `create_access_token` (`main.py` lines 123-131): the caller may override the
expiry delta (in minutes). Line 125 tests `if expires_delta:` - Python
truthiness - so both a missing override and a falsy zero-duration override fall
into the hard-coded `timedelta(minutes=15)` default. `sub` is the `"sub"`
entry of the `data` dict. -/
def create_access_token (sub : Option String) (expires_delta : Option Nat)
    (now : Nat) : Token :=
  Token.signed sub
    (now + (match expires_delta with
            | some d => if d = 0 then 15 else d
            | none => 15))

/-- `jwt.decode` with signature and expiry checking: a malformed or badly-signed
token and an expired one all raise `JWTError`, modelled as `none`. -/
def jwtDecode (t : Token) (now : Nat) : Option (Option String × Nat) :=
  match t with
  | Token.malformed => none
  | Token.signed sub exp => if exp ≤ now then none else some (sub, exp)

/-- `get_current_user` (`main.py` lines 133-149): every failure - undecodable or
expired token, missing `sub` claim, unknown username - raises the single
`credentials_exception` (HTTP 401). -/
def get_current_user (s : Stores) (token : Token) (now : Nat) :
    Except ApiError String :=
  match jwtDecode token now with
  | none => Except.error ApiError.AuthenticationFailure
  | some (sub, _) =>
    match sub with
    | none => Except.error ApiError.AuthenticationFailure
    | some username =>
      match get_user s.users_db username with
      | none => Except.error ApiError.AuthenticationFailure
      | some _ => Except.ok username

/-- A validated `UserCreate` body (`main.py` lines 41-58): `username` has been
trimmed by the validator; both fields passed the length checks. -/
structure UserCreate where
  username : String
  password : String
deriving DecidableEq

/-- Pydantic validation of `UserCreate`: trim the username, require 3-50 chars,
and require a password of at least 6 chars (validation order as in the model). -/
def mkUserCreate (username password : String) : Except ApiError UserCreate :=
  let v := pyStrip username
  if v.length < 3 then Except.error ApiError.ValidationError
  else if 50 < v.length then Except.error ApiError.ValidationError
  else if password.length < 6 then Except.error ApiError.ValidationError
  else Except.ok ⟨v, password⟩

/-- A validated `NoteCreate` body (`main.py` lines 71-85): both fields trimmed
and non-empty. -/
structure NoteCreate where
  title : String
  content : String
deriving DecidableEq

/-- Pydantic validation of `NoteCreate`: `title`/`content` must be non-empty
after stripping; the stripped values are what the endpoint receives. -/
def mkNoteCreate (title content : String) : Except ApiError NoteCreate :=
  if pyStrip title = "" then Except.error ApiError.ValidationError
  else if pyStrip content = "" then Except.error ApiError.ValidationError
  else Except.ok ⟨pyStrip title, pyStrip content⟩

/-- A validated `NoteUpdate` body (`main.py` lines 87-101), identical in shape
and validation to `NoteCreate`. -/
structure NoteUpdate where
  title : String
  content : String
deriving DecidableEq

/-- Pydantic validation of `NoteUpdate` (same rules as `mkNoteCreate`). -/
def mkNoteUpdate (title content : String) : Except ApiError NoteUpdate :=
  if pyStrip title = "" then Except.error ApiError.ValidationError
  else if pyStrip content = "" then Except.error ApiError.ValidationError
  else Except.ok ⟨pyStrip title, pyStrip content⟩

/-- `POST /signup` (`main.py` lines 152-166), with the pydantic validation of
its body inlined first. Returns the stored username and the new stores. -/
def signup (s : Stores) (username password : String) :
    Except ApiError String × Stores :=
  match mkUserCreate username password with
  | Except.error e => (Except.error e, s)
  | Except.ok user =>
    let uname := normalizeUsername user.username
    match dictGet s.users_db uname with
    | some _ => (Except.error ApiError.AlreadyExists, s)
    | none =>
      (Except.ok uname,
       { users_db := dictSet s.users_db uname
           ⟨uname, get_password_hash user.password⟩,
         notes_db := dictSet s.notes_db uname [] })

/-- `POST /token` (`main.py` lines 168-183): OAuth2 form login. The form data is
not pydantic-validated; the raw fields reach the endpoint. -/
def login (s : Stores) (username password : String) (now : Nat) :
    Except ApiError TokenResponse :=
  let uname := normalizeUsername username
  match authenticate_user s uname password with
  | none => Except.error ApiError.AuthenticationFailure
  | some user =>
    Except.ok ⟨create_access_token (some user.username)
      (some ACCESS_TOKEN_EXPIRE_MINUTES) now, "bearer"⟩

/-- `POST /login` (`main.py` lines 185-199): JSON login whose body is the
pydantic-validated `UserCreate` model. -/
def login_json (s : Stores) (username password : String) (now : Nat) :
    Except ApiError TokenResponse :=
  match mkUserCreate username password with
  | Except.error e => Except.error e
  | Except.ok credentials =>
    let uname := normalizeUsername credentials.username
    match authenticate_user s uname credentials.password with
    | none => Except.error ApiError.AuthenticationFailure
    | some user =>
      Except.ok ⟨create_access_token (some user.username)
        (some ACCESS_TOKEN_EXPIRE_MINUTES) now, "bearer"⟩

/-- `notes_db.get(current_user, [])`. -/
def notesOf (s : Stores) (u : String) : List NoteRec :=
  (dictGet s.notes_db u).getD []

/-- `GET /notes` (`main.py` lines 202-205). -/
def get_all_notes (s : Stores) (token : Token) (now : Nat) :
    Except ApiError (List NoteRec) :=
  match get_current_user s token now with
  | Except.error e => Except.error e
  | Except.ok current_user => Except.ok (notesOf s current_user)

/-- The linear scan of `get_note`: first note with the requested id. -/
def findNote (notes : List NoteRec) (note_id : Nat) : Option NoteRec :=
  match notes with
  | [] => none
  | n :: rest => if n.id = note_id then some n else findNote rest note_id

/-- `GET /notes/{note_id}` (`main.py` lines 230-237). -/
def get_note (s : Stores) (note_id : Nat) (token : Token) (now : Nat) :
    Except ApiError NoteRec :=
  match get_current_user s token now with
  | Except.error e => Except.error e
  | Except.ok current_user =>
    match findNote (notesOf s current_user) note_id with
    | some n => Except.ok n
    | none => Except.error ApiError.NotFound

/-- `max([n["id"] for n in user_notes], default=0)`. -/
def maxNoteId (notes : List NoteRec) : Nat :=
  notes.foldl (fun acc n => Nat.max acc n.id) 0

/-- `POST /notes` (`main.py` lines 207-228): auth dependency first, then body
validation, then the insert with id `max + 1`. -/
def create_note (s : Stores) (title content : String) (token : Token)
    (now : Nat) : Except ApiError NoteRec × Stores :=
  match get_current_user s token now with
  | Except.error e => (Except.error e, s)
  | Except.ok current_user =>
    match mkNoteCreate title content with
    | Except.error e => (Except.error e, s)
    | Except.ok note =>
      let user_notes := notesOf s current_user
      let new_id := maxNoteId user_notes + 1
      let new_note : NoteRec :=
        ⟨new_id, note.title, note.content, now, now⟩
      (Except.ok new_note,
       { s with notes_db :=
           dictSet s.notes_db current_user (user_notes ++ [new_note]) })

/-- The in-place loop of `update_note`: rewrite the first note with the
requested id, returning the updated note and the updated list. -/
def updateFirst (notes : List NoteRec) (note_id : Nat) (title content : String)
    (now : Nat) : Option (NoteRec × List NoteRec) :=
  match notes with
  | [] => none
  | n :: rest =>
    if n.id = note_id then
      let n2 : NoteRec :=
        { n with title := title, content := content, updated_at := now }
      some (n2, n2 :: rest)
    else
      match updateFirst rest note_id title content now with
      | none => none
      | some (r, rest2) => some (r, n :: rest2)

/-- `PUT /notes/{note_id}` (`main.py` lines 239-254). -/
def update_note (s : Stores) (note_id : Nat) (title content : String)
    (token : Token) (now : Nat) : Except ApiError NoteRec × Stores :=
  match get_current_user s token now with
  | Except.error e => (Except.error e, s)
  | Except.ok current_user =>
    match mkNoteUpdate title content with
    | Except.error e => (Except.error e, s)
    | Except.ok note_update =>
      match updateFirst (notesOf s current_user) note_id
          note_update.title note_update.content now with
      | none => (Except.error ApiError.NotFound, s)
      | some (r, notes2) =>
        (Except.ok r,
         { s with notes_db := dictSet s.notes_db current_user notes2 })

/-- `DELETE /notes/{note_id}` (`main.py` lines 256-264): the filtered list is
written back before the not-found check, exactly as in the source. -/
def delete_note (s : Stores) (note_id : Nat) (token : Token) (now : Nat) :
    Except ApiError String × Stores :=
  match get_current_user s token now with
  | Except.error e => (Except.error e, s)
  | Except.ok current_user =>
    let user_notes := notesOf s current_user
    let remaining := user_notes.filter (fun n => n.id != note_id)
    let s2 : Stores :=
      { s with notes_db := dictSet s.notes_db current_user remaining }
    if remaining.length = user_notes.length then
      (Except.error ApiError.NotFound, s2)
    else (Except.ok "Note deleted successfully", s2)

/-! ### Concrete scenario

A small concrete run of the API used to instantiate the theorems below: user
"Alice " signs up (stored as `"alice"`), receives a token, creates three notes
(ids 1, 2, 3), deletes note 2 (leaving ids 1 and 3), then deletes note 3. -/

/-- A well-signed token for `"alice"` expiring at instant 1000000. -/
def exToken : Token := Token.signed (some "alice") 1000000

/-- The empty stores at process start. -/
def exStores0 : Stores := ⟨[], []⟩

/-- After `signup "Alice " "secret1"`. -/
def exStores1 : Stores := (signup exStores0 "Alice " "secret1").2

/-- After creating note 1. -/
def exStores2 : Stores := (create_note exStores1 "n1" "c1" exToken 10).2

/-- After creating note 2. -/
def exStores3 : Stores := (create_note exStores2 "n2" "c2" exToken 11).2

/-- After creating note 3. -/
def exStores4 : Stores := (create_note exStores3 "n3" "c3" exToken 12).2

/-- After deleting note 2: alice's notes have ids 1 and 3. -/
def exStores5 : Stores := (delete_note exStores4 2 exToken 13).2

/-- After deleting note 3 (the highest id). -/
def exStores6 : Stores := (delete_note exStores5 3 exToken 14).2

/-- The authentication-rejection conditions of claim C3: malformed/badly-signed
token, expired token, token without a `sub` claim, or subject absent from the
credential store. -/
def authRejects (s : Stores) (t : Token) (now : Nat) : Prop :=
  t = Token.malformed ∨
  (∃ sub e, t = Token.signed sub e ∧ e ≤ now) ∨
  (∃ e, t = Token.signed none e) ∨
  (∃ u e, t = Token.signed (some u) e ∧ dictGet s.users_db u = none)

/-- The store invariant of claim C10: every registered username has an
associated note list. -/
def StoreInv (s : Stores) : Prop :=
  ∀ u, (dictGet s.users_db u).isSome → (dictGet s.notes_db u).isSome

/-! ### Helper lemmas -/

theorem mkUserCreate_ok (u p : String) (uc : UserCreate)
    (h : mkUserCreate u p = Except.ok uc) : uc = ⟨pyStrip u, p⟩ := by
  simp only [mkUserCreate] at h
  split at h
  · exact absurd h (by simp)
  · split at h
    · exact absurd h (by simp)
    · split at h
      · exact absurd h (by simp)
      · injection h with h
        exact h.symm

theorem mkNoteCreate_ok (t c : String) (nc : NoteCreate)
    (h : mkNoteCreate t c = Except.ok nc) : nc = ⟨pyStrip t, pyStrip c⟩ := by
  simp only [mkNoteCreate] at h
  split at h
  · exact absurd h (by simp)
  · split at h
    · exact absurd h (by simp)
    · injection h with h
      exact h.symm

theorem mkNoteCreate_err (t c : String)
    (h : pyStrip t = "" ∨ pyStrip c = "") :
    mkNoteCreate t c = Except.error ApiError.ValidationError := by
  rcases h with h | h
  · simp [mkNoteCreate, h]
  · simp [mkNoteCreate, h]

theorem mkNoteCreate_ok_of_ne (t c : String)
    (ht : pyStrip t ≠ "") (hc : pyStrip c ≠ "") :
    mkNoteCreate t c = Except.ok ⟨pyStrip t, pyStrip c⟩ := by
  simp only [mkNoteCreate]
  rw [if_neg ht, if_neg hc]

theorem mkNoteUpdate_ok (t c : String) (nu : NoteUpdate)
    (h : mkNoteUpdate t c = Except.ok nu) : nu = ⟨pyStrip t, pyStrip c⟩ := by
  simp only [mkNoteUpdate] at h
  split at h
  · exact absurd h (by simp)
  · split at h
    · exact absurd h (by simp)
    · injection h with h
      exact h.symm

theorem mkNoteUpdate_err (t c : String)
    (h : pyStrip t = "" ∨ pyStrip c = "") :
    mkNoteUpdate t c = Except.error ApiError.ValidationError := by
  rcases h with h | h
  · simp [mkNoteUpdate, h]
  · simp [mkNoteUpdate, h]

theorem mkNoteUpdate_ok_of_ne (t c : String)
    (ht : pyStrip t ≠ "") (hc : pyStrip c ≠ "") :
    mkNoteUpdate t c = Except.ok ⟨pyStrip t, pyStrip c⟩ := by
  simp only [mkNoteUpdate]
  rw [if_neg ht, if_neg hc]

theorem dictGet_dictSet_self {α : Type} (d : List (String × α)) (k : String)
    (v : α) : dictGet (dictSet d k v) k = some v := by
  induction d with
  | nil => simp [dictGet, dictSet]
  | cons hd tl ih =>
    obtain ⟨k', v'⟩ := hd
    by_cases h : k' = k
    · simp [dictGet, dictSet, h]
    · simp [dictGet, dictSet, h, ih]

theorem dictGet_dictSet_ne {α : Type} (d : List (String × α)) (k k' : String)
    (v : α) (h : k ≠ k') : dictGet (dictSet d k v) k' = dictGet d k' := by
  induction d with
  | nil => simp [dictGet, dictSet, h]
  | cons hd tl ih =>
    obtain ⟨k₀, v₀⟩ := hd
    by_cases h0 : k₀ = k
    · subst h0
      simp [dictGet, dictSet, h]
    · simp [dictGet, dictSet, h0, ih]

theorem stripL_idem (l : List Char) : stripL (stripL l) = stripL l := by
  have key : ∀ m : List Char,
      m.dropWhile Char.isWhitespace = m →
      (m.rdropWhile Char.isWhitespace).dropWhile Char.isWhitespace
        = m.rdropWhile Char.isWhitespace := by
    intro m hm
    obtain ⟨t, ht⟩ := List.rdropWhile_prefix Char.isWhitespace m
    match hy : m.rdropWhile Char.isWhitespace with
    | [] => rfl
    | a :: y' =>
      rw [hy] at ht
      have hm2 : m = a :: (y' ++ t) := by rw [← ht]; rfl
      have hpa : ¬ (Char.isWhitespace a = true) := by
        intro hcon
        rw [hm2, List.dropWhile_cons_of_pos hcon] at hm
        have hlen : (List.dropWhile Char.isWhitespace (y' ++ t)).length
            = (y' ++ t).length + 1 := by
          rw [hm]
          rfl
        have hle :=
          (List.dropWhile_sublist (l := y' ++ t) Char.isWhitespace).length_le
        omega
      exact List.dropWhile_cons_of_neg hpa
  unfold stripL
  rw [key _ (List.dropWhile_idempotent _ _), List.rdropWhile_idempotent]

theorem pyStrip_idem (s : String) : pyStrip (pyStrip s) = pyStrip s := by
  unfold pyStrip
  exact congrArg String.mk (stripL_idem s.data)

theorem normalizeUsername_pyStrip (s : String) :
    normalizeUsername (pyStrip s) = normalizeUsername s := by
  unfold normalizeUsername
  rw [pyStrip_idem]

theorem findNote_mem (notes : List NoteRec) (note_id : Nat) (n : NoteRec)
    (h : findNote notes note_id = some n) : n ∈ notes := by
  induction notes with
  | nil => simp [findNote] at h
  | cons hd tl ih =>
    by_cases hid : hd.id = note_id
    · simp [findNote, hid] at h
      simp [h]
    · simp [findNote, hid] at h
      exact List.mem_cons_of_mem hd (ih h)

theorem findNote_id (notes : List NoteRec) (note_id : Nat) (n : NoteRec)
    (h : findNote notes note_id = some n) : n.id = note_id := by
  induction notes with
  | nil => simp [findNote] at h
  | cons hd tl ih =>
    by_cases hid : hd.id = note_id
    · simp [findNote, hid] at h
      rw [← h]; exact hid
    · simp [findNote, hid] at h
      exact ih h

/-- Specification of `updateFirst`: on success the list splits as
`pre ++ old :: post` with the first id match at `old`, and only that position
is rewritten. -/
theorem updateFirst_eq (notes : List NoteRec) (note_id : Nat)
    (title content : String) (now : Nat) (r : NoteRec) (notes2 : List NoteRec)
    (h : updateFirst notes note_id title content now = some (r, notes2)) :
    ∃ pre old post,
      notes = pre ++ old :: post ∧
      (∀ m ∈ pre, m.id ≠ note_id) ∧
      old.id = note_id ∧
      r = { old with title := title, content := content, updated_at := now } ∧
      notes2 = pre ++ r :: post := by
  induction notes generalizing notes2 with
  | nil => simp [updateFirst] at h
  | cons hd tl ih =>
    by_cases hid : hd.id = note_id
    · simp only [updateFirst, if_pos hid, Option.some.injEq, Prod.mk.injEq] at h
      obtain ⟨hr, hn2⟩ := h
      refine ⟨[], hd, tl, by simp, by simp, hid, hr.symm, ?_⟩
      rw [← hn2, hr]
      simp
    · simp only [updateFirst, if_neg hid] at h
      match hrec : updateFirst tl note_id title content now with
      | none =>
        rw [hrec] at h
        exact absurd h (by simp)
      | some (r', rest2) =>
        rw [hrec] at h
        simp only [Option.some.injEq, Prod.mk.injEq] at h
        obtain ⟨hr, hn2⟩ := h
        have hrec2 : updateFirst tl note_id title content now = some (r, rest2) := by
          rw [hrec, hr]
        obtain ⟨pre, old, post, h1, h2, h3, h4, h5⟩ := ih rest2 hrec2
        refine ⟨hd :: pre, old, post, by simp [h1], ?_, h3, h4, ?_⟩
        · intro m hm
          rcases List.mem_cons.mp hm with hm | hm
          · rw [hm]; exact hid
          · exact h2 m hm
        · rw [← hn2, h5]
          simp

/-- `get_current_user` depends only on `users_db`. -/
theorem get_current_user_congr (s₁ s₂ : Stores) (token : Token) (now : Nat)
    (h : s₁.users_db = s₂.users_db) :
    get_current_user s₁ token now = get_current_user s₂ token now := by
  unfold get_current_user
  rw [h]

theorem dictGet_dictSet_isSome {α : Type} (d : List (String × α))
    (k k' : String) (v : α) (h : (dictGet d k').isSome) :
    (dictGet (dictSet d k v) k').isSome := by
  by_cases hk : k = k'
  · subst hk
    rw [dictGet_dictSet_self]
    rfl
  · rw [dictGet_dictSet_ne d k k' v hk]
    exact h

theorem notesOf_set_self (s : Stores) (a : String) (l : List NoteRec) :
    notesOf { s with notes_db := dictSet s.notes_db a l } a = l := by
  simp [notesOf, dictGet_dictSet_self]

/-! ### Claim C6 -/

/-- C6 counterexample: the claim "when the caller supplies no override the
issued token's default expiry is 60 minutes after issuance" is false on the
code: `create_access_token` with no override uses the hard-coded
`timedelta(minutes=15)`, so a token issued at instant 0 expires at 15, not
60. -/
theorem C6_counterexample :
    create_access_token (some "alice") none 0 = Token.signed (some "alice") 15 ∧
    create_access_token (some "alice") none 0 ≠ Token.signed (some "alice") 60 := by
  constructor
  · rfl
  · decide

/-- C6 (amended): `create_access_token` accepts a caller-supplied expiry
override, which takes effect when it is a truthy (nonzero) duration; when the
caller supplies no override - or a falsy zero-duration override - the default
expiry is 15 minutes after issuance, not 60. `ACCESS_TOKEN_EXPIRE_MINUTES` is
60 and both login endpoints (form-encoded and JSON) pass it explicitly, so the
tokens either login endpoint actually issues expire 60 minutes after
issuance. -/
theorem C6_token_expiry (sub : Option String) (d now : Nat) (s s₂ : Stores)
    (u p u₂ p₂ : String) (now2 now3 : Nat) (r r₂ : TokenResponse)
    (hd : d ≠ 0)
    (hr : login s u p now2 = Except.ok r)
    (hrj : login_json s₂ u₂ p₂ now3 = Except.ok r₂) :
    create_access_token sub (some d) now = Token.signed sub (now + d) ∧
    create_access_token sub (some 0) now = Token.signed sub (now + 15) ∧
    create_access_token sub none now = Token.signed sub (now + 15) ∧
    ACCESS_TOKEN_EXPIRE_MINUTES = 60 ∧
    (∃ sub2, r.access_token
      = Token.signed sub2 (now2 + ACCESS_TOKEN_EXPIRE_MINUTES)) ∧
    (∃ sub3, r₂.access_token
      = Token.signed sub3 (now3 + ACCESS_TOKEN_EXPIRE_MINUTES)) := by
  refine ⟨by simp [create_access_token, hd], rfl, rfl, rfl, ?_, ?_⟩
  · simp only [login] at hr
    cases hauth : authenticate_user s (normalizeUsername u) p with
    | none =>
      rw [hauth] at hr
      exact absurd hr (by simp)
    | some user =>
      rw [hauth] at hr
      injection hr with hr
      refine ⟨some user.username, ?_⟩
      rw [← hr]
      rfl
  · simp only [login_json] at hrj
    cases hval : mkUserCreate u₂ p₂ with
    | error e =>
      rw [hval] at hrj
      exact absurd hrj (by simp)
    | ok uc =>
      rw [hval] at hrj
      dsimp only at hrj
      cases hauth : authenticate_user s₂ (normalizeUsername uc.username)
          uc.password with
      | none =>
        rw [hauth] at hrj
        exact absurd hrj (by simp)
      | some user =>
        rw [hauth] at hrj
        injection hrj with hrj
        refine ⟨some user.username, ?_⟩
        rw [← hrj]
        rfl

/-- C6 witness. -/
theorem C6_token_expiry_witness :
    (30 : Nat) ≠ 0 ∧
    login exStores1 "ALICE" "secret1" 5
      = Except.ok ⟨Token.signed (some "alice") 65, "bearer"⟩ ∧
    login_json exStores1 "ALICE" "secret1" 9
      = Except.ok ⟨Token.signed (some "alice") 69, "bearer"⟩ ∧
    (create_access_token (some "bob") (some 30) 7
        = Token.signed (some "bob") (7 + 30) ∧
      create_access_token (some "bob") (some 0) 7
        = Token.signed (some "bob") (7 + 15) ∧
      create_access_token (some "bob") none 7 = Token.signed (some "bob") (7 + 15) ∧
      ACCESS_TOKEN_EXPIRE_MINUTES = 60 ∧
      (∃ sub2, (TokenResponse.mk (Token.signed (some "alice") 65) "bearer").access_token
        = Token.signed sub2 (5 + ACCESS_TOKEN_EXPIRE_MINUTES)) ∧
      (∃ sub3, (TokenResponse.mk (Token.signed (some "alice") 69) "bearer").access_token
        = Token.signed sub3 (9 + ACCESS_TOKEN_EXPIRE_MINUTES))) :=
  ⟨by decide, by decide, by decide,
   C6_token_expiry (some "bob") 30 7 exStores1 exStores1 "ALICE" "secret1"
     "ALICE" "secret1" 5 9 ⟨Token.signed (some "alice") 65, "bearer"⟩
     ⟨Token.signed (some "alice") 69, "bearer"⟩
     (by decide) (by decide) (by decide)⟩

/-! ### Claim C9 -/

/-- C9 counterexample: the two login entry shapes are not equivalent for every
(username, password) input. On the input ("ab", "secret123") against empty
stores, the form endpoint reports an authentication failure but the JSON
endpoint reports a validation error (the pydantic `UserCreate` length check),
which is not an authentication failure. -/
theorem C9_counterexample :
    login ⟨[], []⟩ "ab" "secret123" 0
      = Except.error ApiError.AuthenticationFailure ∧
    login_json ⟨[], []⟩ "ab" "secret123" 0
      = Except.error ApiError.ValidationError ∧
    ApiError.ValidationError ≠ ApiError.AuthenticationFailure := by
  refine ⟨by decide, by decide, by decide⟩

/-- C9 (amended): for every (username, password) input that passes the JSON
endpoint's `UserCreate` validation (username 3-50 chars after trimming,
password at least 6 chars), the two entry shapes are equivalent - in fact they
return identical results: both succeed with the same bearer token for the same
resolved subject, or both report the same authentication failure. (Inputs
rejected by that validation yield ValidationError on the JSON endpoint only.) -/
theorem C9_login_equivalence (s : Stores) (uname pw : String) (now : Nat)
    (uc : UserCreate) (hval : mkUserCreate uname pw = Except.ok uc) :
    login_json s uname pw now = login s uname pw now ∧
    (∀ r, login s uname pw now = Except.ok r → r.token_type = "bearer") := by
  have huc := mkUserCreate_ok uname pw uc hval
  subst huc
  constructor
  · simp only [login_json, hval, login, normalizeUsername_pyStrip]
  · intro r hr
    simp only [login] at hr
    cases hauth : authenticate_user s (normalizeUsername uname) pw with
    | none =>
      rw [hauth] at hr
      exact absurd hr (by simp)
    | some user =>
      rw [hauth] at hr
      injection hr with hr
      rw [← hr]

/-- C9 witness. -/
theorem C9_login_equivalence_witness :
    mkUserCreate "ALICE" "secret1" = Except.ok ⟨"ALICE", "secret1"⟩ ∧
    (login_json exStores1 "ALICE" "secret1" 5 = login exStores1 "ALICE" "secret1" 5 ∧
      (∀ r, login exStores1 "ALICE" "secret1" 5 = Except.ok r →
        r.token_type = "bearer")) :=
  ⟨by decide,
   C9_login_equivalence exStores1 "ALICE" "secret1" 5 ⟨"ALICE", "secret1"⟩
     (by decide)⟩

/-! ### Claim C4 -/

/-- C4 counterexample: the clause "deleting the highest-id note and inserting
again reassigns that same id" is false in general. In the reachable state
`exStores5` alice's notes have ids 1 and 3; deleting the highest-id note (3)
and inserting again assigns id 2 (= max of remaining ids + 1), not 3. -/
theorem C4_counterexample :
    (notesOf exStores5 "alice").map NoteRec.id = [1, 3] ∧
    maxNoteId (notesOf exStores5 "alice") = 3 ∧
    (delete_note exStores5 3 exToken 14).1 = Except.ok "Note deleted successfully" ∧
    (create_note exStores6 "n4" "c4" exToken 15).1
      = Except.ok ⟨2, "n4", "c4", 15, 15⟩ ∧
    (2 : Nat) ≠ 3 := by
  refine ⟨by decide, by decide, by decide, by decide, by decide⟩

/-- C4 (amended): inserting a note assigns id = (maximum id currently present
in the owner's list) + 1, or 1 when the owner has no notes, and the assignment
depends only on the owner's own notes, never on other users' notes. Deleting a
note with the highest id m and inserting again assigns (maximum of the
remaining ids) + 1, which reassigns the deleted id m exactly when the
remaining maximum is m - 1 (so id reuse after deletion is possible, but the
deleted id is not always the one reassigned). -/
theorem C4_id_assignment (s : Stores) (title content : String) (tok : Token)
    (now : Nat) (a : String) (nc : NoteCreate)
    (hauth : get_current_user s tok now = Except.ok a)
    (hval : mkNoteCreate title content = Except.ok nc) :
    (create_note s title content tok now).1
      = Except.ok ⟨maxNoteId (notesOf s a) + 1, nc.title, nc.content, now, now⟩ ∧
    (notesOf s a = [] →
      (create_note s title content tok now).1
        = Except.ok ⟨1, nc.title, nc.content, now, now⟩) ∧
    (∀ s₂ tok₂, get_current_user s₂ tok₂ now = Except.ok a →
      notesOf s₂ a = notesOf s a →
      (create_note s₂ title content tok₂ now).1
        = (create_note s title content tok now).1) ∧
    (∀ m msg s₁, delete_note s m tok now = (Except.ok msg, s₁) →
      maxNoteId (notesOf s₁ a) + 1 = m →
      (create_note s₁ title content tok now).1
        = Except.ok ⟨m, nc.title, nc.content, now, now⟩) := by
  have hmain : ∀ (s' : Stores) (tok' : Token),
      get_current_user s' tok' now = Except.ok a →
      (create_note s' title content tok' now).1
        = Except.ok ⟨maxNoteId (notesOf s' a) + 1, nc.title, nc.content, now, now⟩ := by
    intro s' tok' h
    simp only [create_note, h, hval]
  refine ⟨hmain s tok hauth, ?_, ?_, ?_⟩
  · intro he
    rw [hmain s tok hauth, he]
    rfl
  · intro s₂ tok₂ h₂ hsame
    rw [hmain s₂ tok₂ h₂, hmain s tok hauth, hsame]
  · intro m msg s₁ hdel hm
    simp only [delete_note, hauth] at hdel
    split at hdel
    · simp at hdel
    · simp only [Prod.mk.injEq] at hdel
      obtain ⟨hmsg, hs1⟩ := hdel
      have husers : s₁.users_db = s.users_db := by rw [← hs1]
      have hauth1 : get_current_user s₁ tok now = Except.ok a := by
        rw [get_current_user_congr s₁ s tok now husers]
        exact hauth
      rw [hmain s₁ tok hauth1, hm]

/-- C4 witness. -/
theorem C4_id_assignment_witness :
    get_current_user exStores5 exToken 20 = Except.ok "alice" ∧
    mkNoteCreate "n4" "c4" = Except.ok ⟨"n4", "c4"⟩ ∧
    ((create_note exStores5 "n4" "c4" exToken 20).1
        = Except.ok ⟨maxNoteId (notesOf exStores5 "alice") + 1, "n4", "c4", 20, 20⟩ ∧
      (notesOf exStores5 "alice" = [] →
        (create_note exStores5 "n4" "c4" exToken 20).1
          = Except.ok ⟨1, "n4", "c4", 20, 20⟩) ∧
      (∀ s₂ tok₂, get_current_user s₂ tok₂ 20 = Except.ok "alice" →
        notesOf s₂ "alice" = notesOf exStores5 "alice" →
        (create_note s₂ "n4" "c4" tok₂ 20).1
          = (create_note exStores5 "n4" "c4" exToken 20).1) ∧
      (∀ m msg s₁, delete_note exStores5 m exToken 20 = (Except.ok msg, s₁) →
        maxNoteId (notesOf s₁ "alice") + 1 = m →
        (create_note s₁ "n4" "c4" exToken 20).1
          = Except.ok ⟨m, "n4", "c4", 20, 20⟩)) :=
  ⟨by decide, by decide,
   C4_id_assignment exStores5 "n4" "c4" exToken 20 "alice" ⟨"n4", "c4"⟩
     (by decide) (by decide)⟩

/-! ### Claim C1 -/

/-- C1: owner isolation. With the identity resolved to user `a` from the
bearer token, each protected note operation reads and modifies only notes
stored under `a`: list returns exactly `a`'s notes; get returns only a member
of `a`'s notes (whatever id is requested); update and delete leave every other
user `b`'s note list and the whole credential store untouched, update's result
lives in `a`'s list, and delete only removes notes from `a`'s list. -/
theorem C1_owner_isolation (s : Stores) (tok : Token) (now : Nat) (a b : String)
    (hauth : get_current_user s tok now = Except.ok a) (hne : b ≠ a) :
    get_all_notes s tok now = Except.ok (notesOf s a) ∧
    (∀ nid n, get_note s nid tok now = Except.ok n → n ∈ notesOf s a) ∧
    (∀ nid title content,
      dictGet (update_note s nid title content tok now).2.notes_db b
        = dictGet s.notes_db b ∧
      (update_note s nid title content tok now).2.users_db = s.users_db ∧
      (∀ r, (update_note s nid title content tok now).1 = Except.ok r →
        r ∈ notesOf (update_note s nid title content tok now).2 a)) ∧
    (∀ nid,
      dictGet (delete_note s nid tok now).2.notes_db b = dictGet s.notes_db b ∧
      (delete_note s nid tok now).2.users_db = s.users_db ∧
      (∀ n, n ∈ notesOf (delete_note s nid tok now).2 a → n ∈ notesOf s a)) := by
  have hab : a ≠ b := Ne.symm hne
  refine ⟨?_, ?_, ?_, ?_⟩
  · simp only [get_all_notes, hauth]
  · intro nid n h
    simp only [get_note, hauth] at h
    cases hf : findNote (notesOf s a) nid with
    | none =>
      rw [hf] at h
      exact absurd h (by simp)
    | some n0 =>
      rw [hf] at h
      injection h with h
      exact h ▸ findNote_mem _ _ _ hf
  · intro nid title content
    simp only [update_note, hauth]
    cases hnu : mkNoteUpdate title content with
    | error e =>
      dsimp only
      exact ⟨rfl, rfl, fun r hrr => absurd hrr (by simp)⟩
    | ok nu =>
      dsimp only
      cases hup : updateFirst (notesOf s a) nid nu.title nu.content now with
      | none =>
        dsimp only
        exact ⟨rfl, rfl, fun r hrr => absurd hrr (by simp)⟩
      | some p =>
        obtain ⟨r0, notes2⟩ := p
        dsimp only
        refine ⟨dictGet_dictSet_ne s.notes_db a b notes2 hab, rfl, ?_⟩
        intro r hrr
        have hrr2 : Except.ok r0 = Except.ok r := hrr
        injection hrr2 with hrr2
        obtain ⟨pre, old, post, h1, h2, h3, h4, h5⟩ :=
          updateFirst_eq _ _ _ _ _ _ _ hup
        have hmem : r0 ∈ notes2 := by
          rw [h5]
          exact List.mem_append.mpr (Or.inr (List.mem_cons_self _ _))
        rw [← hrr2, notesOf_set_self]
        exact hmem
  · intro nid
    simp only [delete_note, hauth]
    split
    · refine ⟨dictGet_dictSet_ne s.notes_db a b _ hab, rfl, ?_⟩
      intro n hn
      rw [notesOf_set_self] at hn
      exact List.mem_of_mem_filter hn
    · refine ⟨dictGet_dictSet_ne s.notes_db a b _ hab, rfl, ?_⟩
      intro n hn
      rw [notesOf_set_self] at hn
      exact List.mem_of_mem_filter hn

/-- C1 witness. -/
theorem C1_owner_isolation_witness :
    get_current_user exStores2 exToken 20 = Except.ok "alice" ∧
    ("bob" : String) ≠ "alice" ∧
    (get_all_notes exStores2 exToken 20 = Except.ok (notesOf exStores2 "alice") ∧
      (∀ nid n, get_note exStores2 nid exToken 20 = Except.ok n →
        n ∈ notesOf exStores2 "alice") ∧
      (∀ nid title content,
        dictGet (update_note exStores2 nid title content exToken 20).2.notes_db "bob"
          = dictGet exStores2.notes_db "bob" ∧
        (update_note exStores2 nid title content exToken 20).2.users_db
          = exStores2.users_db ∧
        (∀ r, (update_note exStores2 nid title content exToken 20).1 = Except.ok r →
          r ∈ notesOf (update_note exStores2 nid title content exToken 20).2 "alice")) ∧
      (∀ nid,
        dictGet (delete_note exStores2 nid exToken 20).2.notes_db "bob"
          = dictGet exStores2.notes_db "bob" ∧
        (delete_note exStores2 nid exToken 20).2.users_db = exStores2.users_db ∧
        (∀ n, n ∈ notesOf (delete_note exStores2 nid exToken 20).2 "alice" →
          n ∈ notesOf exStores2 "alice"))) :=
  ⟨by decide, by decide,
   C1_owner_isolation exStores2 exToken 20 "alice" "bob" (by decide) (by decide)⟩

/-! ### Claim C3 -/

theorem get_current_user_rejects (s : Stores) (t : Token) (now : Nat)
    (h : authRejects s t now) :
    get_current_user s t now = Except.error ApiError.AuthenticationFailure := by
  rcases h with h | ⟨sub, e, rfl, he⟩ | ⟨e, rfl⟩ | ⟨u, e, rfl, hu⟩
  · subst h
    rfl
  · simp [get_current_user, jwtDecode, he]
  · by_cases he : e ≤ now
    · simp [get_current_user, jwtDecode, he]
    · simp [get_current_user, jwtDecode, he]
  · by_cases he : e ≤ now
    · simp [get_current_user, jwtDecode, he]
    · simp [get_current_user, jwtDecode, he, get_user, hu]

/-- C3: uniform authentication failure. For every protected operation, a
request whose bearer token is malformed or badly signed, is expired, lacks a
`sub` claim, or names a username absent from the credential store is rejected
with the single `AuthenticationFailure` (never `NotFound` or
`ValidationError`), with the stores unchanged, and without distinguishing
which check failed. -/
theorem C3_uniform_rejection (s : Stores) (tok : Token) (now : Nat)
    (title content : String) (nid : Nat) (h : authRejects s tok now) :
    get_all_notes s tok now = Except.error ApiError.AuthenticationFailure ∧
    get_note s nid tok now = Except.error ApiError.AuthenticationFailure ∧
    create_note s title content tok now
      = (Except.error ApiError.AuthenticationFailure, s) ∧
    update_note s nid title content tok now
      = (Except.error ApiError.AuthenticationFailure, s) ∧
    delete_note s nid tok now
      = (Except.error ApiError.AuthenticationFailure, s) := by
  have hgc := get_current_user_rejects s tok now h
  unfold get_all_notes get_note create_note update_note delete_note
  rw [hgc]
  exact ⟨rfl, rfl, rfl, rfl, rfl⟩

/-- C3 witness: an expired token (expiry 1000000, used at 1000000). -/
theorem C3_uniform_rejection_witness :
    authRejects exStores2 exToken 1000000 ∧
    (get_all_notes exStores2 exToken 1000000
        = Except.error ApiError.AuthenticationFailure ∧
      get_note exStores2 1 exToken 1000000
        = Except.error ApiError.AuthenticationFailure ∧
      create_note exStores2 "t" "c" exToken 1000000
        = (Except.error ApiError.AuthenticationFailure, exStores2) ∧
      update_note exStores2 1 "t" "c" exToken 1000000
        = (Except.error ApiError.AuthenticationFailure, exStores2) ∧
      delete_note exStores2 1 exToken 1000000
        = (Except.error ApiError.AuthenticationFailure, exStores2)) :=
  ⟨Or.inr (Or.inl ⟨some "alice", 1000000, rfl, le_refl 1000000⟩),
   C3_uniform_rejection exStores2 exToken 1000000 "t" "c" 1
     (Or.inr (Or.inl ⟨some "alice", 1000000, rfl, le_refl 1000000⟩))⟩

/-! ### Claim C5 -/

theorem update_note_spec (s : Stores) (nid : Nat) (title content : String)
    (tok : Token) (now : Nat) (a : String) (r : NoteRec) (s' : Stores)
    (hauth : get_current_user s tok now = Except.ok a)
    (hok : update_note s nid title content tok now = (Except.ok r, s')) :
    r.title = pyStrip title ∧ r.content = pyStrip content ∧
    r.updated_at = now ∧
    (∃ pre old post,
      notesOf s a = pre ++ old :: post ∧
      (∀ m ∈ pre, m.id ≠ nid) ∧ old.id = nid ∧
      r.id = old.id ∧ r.created_at = old.created_at ∧
      notesOf s' a = pre ++ r :: post) ∧
    (∀ b, b ≠ a → dictGet s'.notes_db b = dictGet s.notes_db b) ∧
    s'.users_db = s.users_db := by
  simp only [update_note, hauth] at hok
  cases hnu : mkNoteUpdate title content with
  | error e =>
    rw [hnu] at hok
    simp at hok
  | ok nu =>
    have hnu2 := mkNoteUpdate_ok title content nu hnu
    rw [hnu] at hok
    dsimp only at hok
    cases hup : updateFirst (notesOf s a) nid nu.title nu.content now with
    | none =>
      rw [hup] at hok
      simp at hok
    | some p =>
      obtain ⟨r0, notes2⟩ := p
      rw [hup] at hok
      dsimp only at hok
      simp only [Prod.mk.injEq] at hok
      obtain ⟨hr0, hs'⟩ := hok
      injection hr0 with hr0
      subst hr0
      obtain ⟨pre, old, post, h1, h2, h3, h4, h5⟩ :=
        updateFirst_eq _ _ _ _ _ _ _ hup
      have htitle : nu.title = pyStrip title := by rw [hnu2]
      have hcontent : nu.content = pyStrip content := by rw [hnu2]
      refine ⟨by rw [h4, htitle], by rw [h4, hcontent], by rw [h4], ?_, ?_, ?_⟩
      · refine ⟨pre, old, post, h1, h2, h3, by rw [h4], by rw [h4], ?_⟩
        rw [← hs', notesOf_set_self]
        exact h5
      · intro b hb
        rw [← hs']
        exact dictGet_dictSet_ne s.notes_db a b notes2 (Ne.symm hb)
      · rw [← hs']

/-- C5: a successful update by the authenticated owner `a` of the note with the
requested id replaces that note's title and content (with the trimmed inputs)
and refreshes its `updated_at` to the current instant, while preserving the
note's id and `created_at`; the owner's other notes (before and after the
updated position) and every other user's note list are left unchanged, as is
the credential store. -/
theorem C5_update_frame (s : Stores) (nid : Nat) (title content : String)
    (tok : Token) (now : Nat) (a : String) (r : NoteRec) (s' : Stores)
    (hauth : get_current_user s tok now = Except.ok a)
    (hok : update_note s nid title content tok now = (Except.ok r, s')) :
    r.title = pyStrip title ∧ r.content = pyStrip content ∧
    r.updated_at = now ∧
    (∃ pre old post,
      notesOf s a = pre ++ old :: post ∧
      (∀ m ∈ pre, m.id ≠ nid) ∧ old.id = nid ∧
      r.id = old.id ∧ r.created_at = old.created_at ∧
      notesOf s' a = pre ++ r :: post) ∧
    (∀ b, b ≠ a → dictGet s'.notes_db b = dictGet s.notes_db b) ∧
    s'.users_db = s.users_db :=
  update_note_spec s nid title content tok now a r s' hauth hok

/-- C5 witness: updating note 1 of the concrete scenario. -/
theorem C5_update_frame_witness :
    get_current_user exStores2 exToken 20 = Except.ok "alice" ∧
    update_note exStores2 1 " New " " Body2 " exToken 20
      = (Except.ok ⟨1, "New", "Body2", 10, 20⟩,
         (update_note exStores2 1 " New " " Body2 " exToken 20).2) ∧
    ((⟨1, "New", "Body2", 10, 20⟩ : NoteRec).title = pyStrip " New " ∧
      (⟨1, "New", "Body2", 10, 20⟩ : NoteRec).content = pyStrip " Body2 " ∧
      (⟨1, "New", "Body2", 10, 20⟩ : NoteRec).updated_at = 20 ∧
      (∃ pre old post,
        notesOf exStores2 "alice" = pre ++ old :: post ∧
        (∀ m ∈ pre, m.id ≠ 1) ∧ old.id = 1 ∧
        (⟨1, "New", "Body2", 10, 20⟩ : NoteRec).id = old.id ∧
        (⟨1, "New", "Body2", 10, 20⟩ : NoteRec).created_at = old.created_at ∧
        notesOf (update_note exStores2 1 " New " " Body2 " exToken 20).2 "alice"
          = pre ++ (⟨1, "New", "Body2", 10, 20⟩ : NoteRec) :: post) ∧
      (∀ b, b ≠ "alice" →
        dictGet (update_note exStores2 1 " New " " Body2 " exToken 20).2.notes_db b
          = dictGet exStores2.notes_db b) ∧
      (update_note exStores2 1 " New " " Body2 " exToken 20).2.users_db
        = exStores2.users_db) :=
  ⟨by decide, by decide,
   C5_update_frame exStores2 1 " New " " Body2 " exToken 20 "alice"
     ⟨1, "New", "Body2", 10, 20⟩
     (update_note exStores2 1 " New " " Body2 " exToken 20).2
     (by decide) (by decide)⟩

/-! ### Claim C2 -/

/-- C2: for every valid (username, password) pair not yet registered, signup
followed by login with the same raw credentials succeeds and yields a bearer
token whose Auth Gateway resolution (`get_current_user`, here before the
token's expiry) returns the trimmed-and-lowercased form of the username. -/
theorem C2_signup_login_roundtrip (s : Stores) (uname pw : String)
    (now1 now2 : Nat) (uc : UserCreate)
    (hval : mkUserCreate uname pw = Except.ok uc)
    (hfresh : dictGet s.users_db (normalizeUsername uname) = none)
    (htime : now2 < now1 + ACCESS_TOKEN_EXPIRE_MINUTES) :
    ∃ s' resp,
      signup s uname pw = (Except.ok (normalizeUsername uname), s') ∧
      login s' uname pw now1 = Except.ok resp ∧
      resp.token_type = "bearer" ∧
      get_current_user s' resp.access_token now2
        = Except.ok (normalizeUsername uname) := by
  have huc := mkUserCreate_ok uname pw uc hval
  subst huc
  refine ⟨⟨dictSet s.users_db (normalizeUsername uname)
      ⟨normalizeUsername uname, get_password_hash pw⟩,
      dictSet s.notes_db (normalizeUsername uname) []⟩,
    ⟨Token.signed (some (normalizeUsername uname))
      (now1 + ACCESS_TOKEN_EXPIRE_MINUTES), "bearer"⟩, ?_, ?_, rfl, ?_⟩
  · simp only [signup, hval]
    rw [normalizeUsername_pyStrip, hfresh]
  · simp only [login, authenticate_user, get_user, dictGet_dictSet_self,
      verify_password, beq_self_eq_true, if_pos]
    rfl
  · simp only [get_current_user, jwtDecode]
    rw [if_neg (not_le.mpr htime)]
    dsimp only
    simp only [get_user, dictGet_dictSet_self]

/-- C2 witness. -/
theorem C2_signup_login_roundtrip_witness :
    mkUserCreate "Alice " "secret1" = Except.ok ⟨"Alice", "secret1"⟩ ∧
    dictGet exStores0.users_db (normalizeUsername "Alice ") = none ∧
    30 < 0 + ACCESS_TOKEN_EXPIRE_MINUTES ∧
    (∃ s' resp,
      signup exStores0 "Alice " "secret1"
        = (Except.ok (normalizeUsername "Alice "), s') ∧
      login s' "Alice " "secret1" 0 = Except.ok resp ∧
      resp.token_type = "bearer" ∧
      get_current_user s' resp.access_token 30
        = Except.ok (normalizeUsername "Alice ")) :=
  ⟨by decide, by decide, by decide,
   C2_signup_login_roundtrip exStores0 "Alice " "secret1" 0 30
     ⟨"Alice", "secret1"⟩ (by decide) (by decide) (by decide)⟩

/-! ### Claim C7 -/

/-- C7: if a username is already registered, any later well-formed signup whose
username trims and lowercases to that stored key fails with `AlreadyExists`,
and the failed call returns the stores unchanged (the existing user's password
hash and notes are intact). -/
theorem C7_duplicate_signup (s : Stores) (u2 pw : String) (uc : UserCreate)
    (rec : UserRec) (hval : mkUserCreate u2 pw = Except.ok uc)
    (hdup : dictGet s.users_db (normalizeUsername u2) = some rec) :
    signup s u2 pw = (Except.error ApiError.AlreadyExists, s) := by
  have huc := mkUserCreate_ok u2 pw uc hval
  subst huc
  simp only [signup, hval]
  rw [normalizeUsername_pyStrip, hdup]

/-- C7 witness: signing up "  ALICE " after "Alice " is stored as "alice". -/
theorem C7_duplicate_signup_witness :
    mkUserCreate "  ALICE " "other123" = Except.ok ⟨"ALICE", "other123"⟩ ∧
    dictGet exStores1.users_db (normalizeUsername "  ALICE ")
      = some ⟨"alice", get_password_hash "secret1"⟩ ∧
    signup exStores1 "  ALICE " "other123"
      = (Except.error ApiError.AlreadyExists, exStores1) :=
  ⟨by decide, by decide,
   C7_duplicate_signup exStores1 "  ALICE " "other123" ⟨"ALICE", "other123"⟩
     ⟨"alice", get_password_hash "secret1"⟩ (by decide) (by decide)⟩

/-! ### Claim C8 -/

/-- C8: for note create and update by an authenticated user: if title or
content is empty after trimming, the operation fails with a validation error
and the stores are unchanged; otherwise the stored title and content are
exactly the trimmed inputs (create appends the new trimmed note to the owner's
list; a successful update stores the trimmed fields in the owner's list). -/
theorem C8_trim_validation (s : Stores) (title content : String) (tok : Token)
    (now : Nat) (a : String) (nid : Nat)
    (hauth : get_current_user s tok now = Except.ok a) :
    (pyStrip title = "" ∨ pyStrip content = "" →
      create_note s title content tok now
        = (Except.error ApiError.ValidationError, s) ∧
      update_note s nid title content tok now
        = (Except.error ApiError.ValidationError, s)) ∧
    (pyStrip title ≠ "" → pyStrip content ≠ "" →
      (∃ r s₂, create_note s title content tok now = (Except.ok r, s₂) ∧
        r.title = pyStrip title ∧ r.content = pyStrip content ∧
        notesOf s₂ a = notesOf s a ++ [r]) ∧
      (∀ r s₂, update_note s nid title content tok now = (Except.ok r, s₂) →
        r.title = pyStrip title ∧ r.content = pyStrip content ∧
        r ∈ notesOf s₂ a)) := by
  constructor
  · intro hemp
    constructor
    · simp only [create_note, hauth, mkNoteCreate_err title content hemp]
    · simp only [update_note, hauth, mkNoteUpdate_err title content hemp]
  · intro ht hc
    constructor
    · refine ⟨⟨maxNoteId (notesOf s a) + 1, pyStrip title, pyStrip content, now, now⟩,
        { s with notes_db := dictSet s.notes_db a (notesOf s a ++
          [⟨maxNoteId (notesOf s a) + 1, pyStrip title, pyStrip content, now, now⟩]) },
        ?_, rfl, rfl, ?_⟩
      · simp only [create_note, hauth, mkNoteCreate_ok_of_ne title content ht hc]
      · rw [notesOf_set_self]
    · intro r s₂ hupd
      obtain ⟨h1, h2, _, ⟨pre, old, post, _, _, _, _, _, h9⟩, _, _⟩ :=
        update_note_spec s nid title content tok now a r s₂ hauth hupd
      refine ⟨h1, h2, ?_⟩
      rw [h9]
      exact List.mem_append.mpr (Or.inr (List.mem_cons_self _ _))

/-- C8 witness. -/
theorem C8_trim_validation_witness :
    get_current_user exStores2 exToken 20 = Except.ok "alice" ∧
    ((pyStrip " x " = "" ∨ pyStrip "y" = "" →
      create_note exStores2 " x " "y" exToken 20
        = (Except.error ApiError.ValidationError, exStores2) ∧
      update_note exStores2 1 " x " "y" exToken 20
        = (Except.error ApiError.ValidationError, exStores2)) ∧
    (pyStrip " x " ≠ "" → pyStrip "y" ≠ "" →
      (∃ r s₂, create_note exStores2 " x " "y" exToken 20 = (Except.ok r, s₂) ∧
        r.title = pyStrip " x " ∧ r.content = pyStrip "y" ∧
        notesOf s₂ "alice" = notesOf exStores2 "alice" ++ [r]) ∧
      (∀ r s₂, update_note exStores2 1 " x " "y" exToken 20 = (Except.ok r, s₂) →
        r.title = pyStrip " x " ∧ r.content = pyStrip "y" ∧
        r ∈ notesOf s₂ "alice"))) :=
  ⟨by decide,
   C8_trim_validation exStores2 " x " "y" exToken 20 "alice" 1 (by decide)⟩

/-! ### Claim C10 -/

/-- C10: the invariant "every registered username has an associated note list"
is preserved by every store-mutating operation, signup initializes the fresh
user's list to the empty list, and the first list operation for a freshly
registered user returns the empty sequence (not an error). -/
theorem C10_users_have_note_lists (s : Stores) (uname pw title content : String)
    (tok : Token) (now : Nat) (nid : Nat) (hinv : StoreInv s) :
    StoreInv (signup s uname pw).2 ∧
    StoreInv (create_note s title content tok now).2 ∧
    StoreInv (update_note s nid title content tok now).2 ∧
    StoreInv (delete_note s nid tok now).2 ∧
    (∀ u s', signup s uname pw = (Except.ok u, s') →
      dictGet s'.notes_db u = some [] ∧
      (∀ tok2 now2, get_current_user s' tok2 now2 = Except.ok u →
        get_all_notes s' tok2 now2 = Except.ok [])) := by
  have hset : ∀ (nd : List (String × List NoteRec)) (k : String)
      (l : List NoteRec),
      StoreInv ⟨s.users_db, nd⟩ → StoreInv ⟨s.users_db, dictSet nd k l⟩ := by
    intro nd k l h u hu
    exact dictGet_dictSet_isSome nd k u l (h u hu)
  refine ⟨?_, ?_, ?_, ?_, ?_⟩
  · cases hval : mkUserCreate uname pw with
    | error e =>
      simp only [signup, hval]
      exact hinv
    | ok uc =>
      simp only [signup, hval]
      cases hdup : dictGet s.users_db (normalizeUsername uc.username) with
      | some rec =>
        dsimp only
        exact hinv
      | none =>
        dsimp only
        intro u hu
        by_cases hk : normalizeUsername uc.username = u
        · subst hk
          rw [dictGet_dictSet_self]
          rfl
        · rw [dictGet_dictSet_ne s.users_db _ u _ hk] at hu
          rw [dictGet_dictSet_ne s.notes_db _ u _ hk]
          exact hinv u hu
  · cases hgc : get_current_user s tok now with
    | error e =>
      simp only [create_note, hgc]
      exact hinv
    | ok cu =>
      simp only [create_note, hgc]
      cases hval : mkNoteCreate title content with
      | error e =>
        dsimp only
        exact hinv
      | ok nc =>
        dsimp only
        exact hset s.notes_db cu _ hinv
  · cases hgc : get_current_user s tok now with
    | error e =>
      simp only [update_note, hgc]
      exact hinv
    | ok cu =>
      simp only [update_note, hgc]
      cases hval : mkNoteUpdate title content with
      | error e =>
        dsimp only
        exact hinv
      | ok nu =>
        dsimp only
        cases hup : updateFirst (notesOf s cu) nid nu.title nu.content now with
        | none =>
          dsimp only
          exact hinv
        | some p =>
          obtain ⟨r0, notes2⟩ := p
          dsimp only
          exact hset s.notes_db cu notes2 hinv
  · cases hgc : get_current_user s tok now with
    | error e =>
      simp only [delete_note, hgc]
      exact hinv
    | ok cu =>
      simp only [delete_note, hgc]
      split
      · exact hset s.notes_db cu _ hinv
      · exact hset s.notes_db cu _ hinv
  · intro u s' hsig
    cases hval : mkUserCreate uname pw with
    | error e =>
      simp only [signup, hval] at hsig
      simp at hsig
    | ok uc =>
      simp only [signup, hval] at hsig
      cases hdup : dictGet s.users_db (normalizeUsername uc.username) with
      | some rec =>
        rw [hdup] at hsig
        simp at hsig
      | none =>
        rw [hdup] at hsig
        dsimp only at hsig
        simp only [Prod.mk.injEq] at hsig
        obtain ⟨hu, hs'⟩ := hsig
        injection hu with hu
        subst hu
        constructor
        · rw [← hs']
          exact dictGet_dictSet_self s.notes_db _ []
        · intro tok2 now2 hgc2
          simp only [get_all_notes, hgc2]
          rw [← hs']
          simp only [notesOf, dictGet_dictSet_self, Option.getD_some]

/-- C10 witness. -/
theorem C10_users_have_note_lists_witness :
    StoreInv exStores0 ∧
    (StoreInv (signup exStores0 "Alice " "secret1").2 ∧
      StoreInv (create_note exStores0 "t" "c" exToken 5).2 ∧
      StoreInv (update_note exStores0 1 "t" "c" exToken 5).2 ∧
      StoreInv (delete_note exStores0 1 exToken 5).2 ∧
      (∀ u s', signup exStores0 "Alice " "secret1" = (Except.ok u, s') →
        dictGet s'.notes_db u = some [] ∧
        (∀ tok2 now2, get_current_user s' tok2 now2 = Except.ok u →
          get_all_notes s' tok2 now2 = Except.ok []))) :=
  ⟨fun u hu => by simp [exStores0, dictGet] at hu,
   C10_users_have_note_lists exStores0 "Alice " "secret1" "t" "c" exToken 5 1
     (fun u hu => by simp [exStores0, dictGet] at hu)⟩

end NoteApp
